import Mathlib

/-!
Verification of the TypePolish grammar-correction backend
(`backend/main.py`) against its natural-language specification.

The Python source is shallowly embedded: every pure helper becomes a Lean
function on `String` (represented through its `List Char` data), the
process-global LanguageTool client handle becomes explicit state passing,
and each fallible external collaborator (the LanguageTool public API and
the Hugging Face inference API) becomes an explicit outcome value passed
to the function that consults it.
-/

namespace TypePolish

/-! ## Python string primitives -/

/-- The characters Python `str.strip()` / `str.split()` treat as whitespace
(ASCII subset: space, tab, newline, carriage return, vertical tab, form feed). -/
def pyIsSpace (c : Char) : Bool :=
  c = ' ' || c = '\t' || c = '\n' || c = '\r' || c = '\x0b' || c = '\x0c'

/-- `str.strip()` on the character list: drop whitespace from both ends. -/
def stripList (l : List Char) : List Char :=
  ((l.dropWhile pyIsSpace).reverse.dropWhile pyIsSpace).reverse

/-- Python `text.strip()`. -/
def pyStrip (s : String) : String :=
  ⟨stripList s.data⟩

/-- `str.split()` (split on whitespace runs, dropping empty fields):
`acc` holds the current word reversed. -/
def wordsAux : List Char → List Char → List (List Char)
  | acc, [] => if acc = [] then [] else [acc.reverse]
  | acc, c :: rest =>
    if pyIsSpace c then
      if acc = [] then wordsAux [] rest else acc.reverse :: wordsAux [] rest
    else wordsAux (c :: acc) rest

/-- Python `" ".join(text.split())`: collapse whitespace runs to single
spaces and trim both ends. -/
def normWS (s : String) : String :=
  ⟨List.intercalate [' '] (wordsAux [] s.data)⟩

/-- Python `text.lower()` (ASCII range, as used by the source). -/
def pyLower (s : String) : String :=
  ⟨s.data.map Char.toLower⟩

/-- Python `text.capitalize()`: first character upper-cased, rest lower-cased. -/
def pyCapitalize (s : String) : String :=
  match s.data with
  | [] => ""
  | c :: rest => ⟨c.toUpper :: rest.map Char.toLower⟩

/-- Does `pat` occur at the head of `l`? (`str.startswith`). -/
def startsWithList : List Char → List Char → Bool
  | [], _ => true
  | _ :: _, [] => false
  | p :: ps, c :: cs => p = c && startsWithList ps cs

/-- Python `pat in s` on character lists. -/
def containsSubList (pat : List Char) (l : List Char) : Bool :=
  startsWithList pat l ||
    match l with
    | [] => false
    | _ :: rest => containsSubList pat rest

/-- Python `pat in s`. -/
def pyContains (s pat : String) : Bool :=
  containsSubList pat.data s.data

/-- Fueled worker for `str.replace`: left-to-right scan, replacing every
occurrence of `old` (assumed nonempty at call sites) by `new`.  The fuel is
the length of the scanned list, which bounds the number of steps. -/
def replaceAllAux (old new : List Char) : Nat → List Char → List Char
  | _, [] => []
  | 0, l => l
  | fuel + 1, c :: rest =>
    if old ≠ [] && startsWithList old (c :: rest) then
      new ++ replaceAllAux old new fuel (List.drop (old.length - 1) rest)
    else
      c :: replaceAllAux old new fuel rest

/-- Python `s.replace(old, new)` (all occurrences; `old` nonempty in every
table of the source). -/
def pyReplace (s old new : String) : String :=
  ⟨replaceAllAux old.data new.data s.data.length s.data⟩

/-- Index of the last occurrence of `pat` in `l` (`str.rfind`), as an
offset from the front; `none` when `pat` does not occur. -/
def rfindAux (pat : List Char) : List Char → Option Nat
  | [] => if pat = [] then some 0 else none
  | c :: rest =>
    match rfindAux pat rest with
    | some i => some (i + 1)
    | none => if startsWithList pat (c :: rest) then some 0 else none

/-- Python `s.rfind(pat)` returning `none` for `-1`. -/
def pyRfind (s pat : String) : Option Nat :=
  rfindAux pat.data s.data

/-- Python `x or default` for an optional string field: `None` and `""` are
falsy, everything else is kept. -/
def pyOr (o : Option String) (d : String) : String :=
  match o with
  | none => d
  | some s => if s = "" then d else s

/-! ## The process-global LanguageTool client handle (`get_language_tool`)

`main.py` keeps one global `_lt_tool` (initially `None`).  We model it as
an explicit `Option Nat` state (the `Nat` stands for the identity of the
constructed `LanguageToolPublicAPI` object) threaded through calls.  The
environment behaviour of one initialization attempt is an `LTInit` value:
both `except RateLimitError` and `except Exception` branches of the source
set `_lt_tool = None` and return `None`, so they are one constructor. -/

/-- Outcome of one `language_tool_python.LanguageToolPublicAPI("en-US")`
construction attempt: it yields a client object, or raises
(rate limit or any other error). -/
inductive LTInit where
  | succeeds (c : Nat)
  | fails
deriving DecidableEq

/-- Result of one `get_language_tool()` call. -/
structure GetToolResult where
  ret : Option Nat
  newState : Option Nat
  attemptedInit : Bool
deriving DecidableEq

/-- `get_language_tool` (main.py lines 50-70): return the cached client if
the global is set; otherwise attempt initialization, caching the client on
success and resetting the global to `None` on failure. -/
def get_language_tool (env : LTInit) (st : Option Nat) : GetToolResult :=
  match st with
  | some c => ⟨some c, some c, false⟩
  | none =>
    match env with
    | .succeeds c => ⟨some c, some c, true⟩
    | .fails => ⟨none, none, true⟩

/-! ## `apply_language_tool` -/

/-- Observable outcome of the LanguageTool collaborator for one request:
`unavailable` means `get_language_tool()` returned `None` (initialization
failed or rate-limited), `checkError` means `tool.check` or `correct`
raised (rate limit, network or check error), `ok corrected` means the
check succeeded and produced `corrected` (pre-`strip`). -/
inductive LTOutcome where
  | unavailable
  | checkError
  | ok (corrected : String)
deriving DecidableEq

/-- `apply_language_tool` (main.py lines 73-96): strip the input; empty
input yields `""`; with no tool, or when the check raises, return the
stripped original; otherwise return the stripped corrected text. -/
def apply_language_tool (lt : LTOutcome) (text : String) : String :=
  let cleaned := pyStrip text
  if cleaned = "" then ""
  else
    match lt with
    | .unavailable => cleaned
    | .checkError => cleaned
    | .ok corrected => pyStrip corrected

/-! ## `build_hf_prompt` -/

/-- `tone_instruction_map` (main.py lines 111-119). -/
def tone_instruction_map : List (String × String) :=
  [("friendly", "in a warm, friendly tone"),
   ("professional", "in a clear and professional tone"),
   ("confident", "in a confident, self-assured tone"),
   ("calm", "in a calm and composed tone"),
   ("caring", "in a caring and supportive tone"),
   ("persuasive", "in a persuasive and encouraging tone"),
   ("neutral", "in a neutral tone")]

/-- `style_instruction_map` (main.py lines 121-127). -/
def style_instruction_map : List (String × String) :=
  [("neutral", "with normal everyday English"),
   ("student", "with simple, clear English suitable for a college student"),
   ("corporate", "with formal business email style"),
   ("ielts", "with IELTS-style academic English"),
   ("romantic", "with soft and gentle wording, but still respectful")]

/-- Python `dict.get(key, default)` over an association list. -/
def dictGetD (m : List (String × String)) (k d : String) : String :=
  match m.find? (fun p => p.1 = k) with
  | some p => p.2
  | none => d

/-- `build_hf_prompt` (main.py lines 107-139). -/
def build_hf_prompt (text tone style : String) : String :=
  let tone_part := dictGetD tone_instruction_map tone "in a neutral tone"
  let style_part := dictGetD style_instruction_map style "with normal everyday English"
  "Paraphrase the following text " ++ tone_part ++ " and " ++ style_part ++
    ". Keep the original meaning and person the same. " ++
    "Use natural, fluent sentences and split long sentences if needed.\n\n" ++
    "Text: " ++ text ++ "\n\nRewritten:"

/-! ## `call_hf_rewrite` -/

/-- Outcome of the single `requests.post` to the Hugging Face API:
`httpFail` covers any raised exception (network error, timeout, non-2xx via
`raise_for_status`, JSON decode error); `response gen` is a decoded body,
where `gen` is the `generated_text` string extracted by the duck-typed
shape checks of lines 159-163 (`none` when no such string field exists). -/
inductive HFResult where
  | httpFail
  | response (gen : Option String)
deriving DecidableEq

/-- The post-processing of a non-empty generated string
(main.py lines 169-191): strip, cut an echoed `"rewritten:"` or `"text:"`
marker, collapse whitespace, upper-case a leading letter, and append a
final `"."` when terminal punctuation is missing. -/
def hfPostProcess (generated : String) : String :=
  let text0 := pyStrip generated
  let lower := pyLower text0
  let text1 :=
    if pyContains lower "rewritten:" then
      match pyRfind lower "rewritten:" with
      | some idx => pyStrip ⟨text0.data.drop (idx + ("rewritten:".length))⟩
      | none => text0
    else if pyContains lower "text:" then
      match pyRfind lower "text:" with
      | some idx =>
        let tail := pyStrip ⟨text0.data.drop (idx + ("text:".length))⟩
        if 0 < tail.data.length ∧ tail.data.length < text0.data.length then tail
        else text0
      | none => text0
    else text0
  let text2 := normWS text1
  let text3 :=
    match text2.data with
    | [] => text2
    | c :: rest => if c.isAlpha then ⟨c.toUpper :: rest⟩ else text2
  match text3.data with
  | [] => text3
  | c :: rest =>
    if (c :: rest).getLastD ' ' ∈ ['.', '!', '?'] then text3
    else ⟨(c :: rest) ++ ['.']⟩

/-- `call_hf_rewrite` (main.py lines 142-195): returns
`(text, used_hf)`; a missing or empty `HF_API_TOKEN`, a raised request
exception, a response without a non-empty `generated_text`, or a generated
string that post-processes to `""` all return `(fallback, false)`. -/
def call_hf_rewrite (token : Option String) (hf : HFResult)
    (_prompt fallback : String) : String × Bool :=
  if pyOr token "" = "" then (fallback, false)
  else
    match hf with
    | .httpFail => (fallback, false)
    | .response gen =>
      match gen with
      | none => (fallback, false)
      | some g =>
        if g = "" then (fallback, false)
        else
          let text := hfPostProcess g
          if text = "" then (fallback, false) else (text, true)

/-! ## `basic_tone_adjust`, `simple_correct` -/

/-- The professional-mode replacement table (main.py lines 226-235),
in declaration order. -/
def professional_replacements : List (String × String) :=
  [(" bro", " sir"),
   (" gonna", " going to"),
   (" wanna", " want to"),
   (" don't", " do not"),
   (" can't", " cannot"),
   (" won't", " will not"),
   (" okay", " all right"),
   (" ok", " all right")]

/-- The casual-mode replacement table (main.py lines 240-243). -/
def casual_replacements : List (String × String) :=
  [("sir", "bro"),
   ("madam", "bro")]

/-- Apply a replacement table in declaration order, each entry by plain
substring replacement over the whole text. -/
def applyReplacements (table : List (String × String)) (text : String) : String :=
  table.foldl (fun acc p => pyReplace acc p.1 p.2) text

/-- `basic_tone_adjust` (main.py lines 219-247): substring-replacement
tables for `"professional"` and `"casual"`; any other mode (including the
default `"grammar"`) leaves the text unchanged. -/
def basic_tone_adjust (text : String) (mode : String) : String :=
  if mode = "professional" then applyReplacements professional_replacements text
  else if mode = "casual" then applyReplacements casual_replacements text
  else text

/-- The capitalize-and-punctuate step of `simple_correct`
(main.py lines 261-265) on the character list: upper-case the first
character of a non-empty string; append `"."` when the last character is
not in `".!?"`. -/
def capPunctList : List Char → List Char
  | [] => []
  | c :: rest =>
    if (c.toUpper :: rest).getLastD ' ' ∈ ['.', '!', '?'] then c.toUpper :: rest
    else (c.toUpper :: rest) ++ ['.']

/-- The capitalize-and-punctuate step of `simple_correct`
(main.py lines 261-265). -/
def capitalize_and_punctuate (s : String) : String :=
  ⟨capPunctList s.data⟩

/-- The summary string of `simple_correct` (main.py line 267). -/
def simpleSummary (mode : String) : String :=
  "Grammar and spelling corrected using LanguageToolPublicAPI with " ++
    mode ++ " style."

/-- `simple_correct` (main.py lines 250-268). -/
def simple_correct (lt : LTOutcome) (text : String) (mode : String) :
    String × String :=
  let cleaned := pyStrip text
  if cleaned = "" then ("", "No text provided.")
  else
    let corrected := capitalize_and_punctuate
      (basic_tone_adjust (apply_language_tool lt cleaned) mode)
    (corrected, simpleSummary mode)

/-! ## Request and response shapes -/

/-- `TextRequest` (main.py lines 203-205): `mode` defaults to
`"grammar"`; `body.mode or "grammar"` additionally maps `None` and `""`
to `"grammar"`. -/
structure TextRequest where
  text : String
  mode : Option String
deriving DecidableEq

/-- `AIRewriteRequest` (main.py lines 208-211). -/
structure AIRewriteRequest where
  text : String
  tone : Option String
  style : Option String
deriving DecidableEq

/-- The `/correct` response dictionary. -/
structure CorrectResponse where
  correctedText : String
  changesSummary : String
deriving DecidableEq

/-- The `/polish-ai` response dictionary; the empty-input short circuit
omits `appliedTone` and `appliedStyle`, modelled as `none`. -/
structure PolishResponse where
  correctedText : String
  changesSummary : String
  appliedTone : Option String
  appliedStyle : Option String
deriving DecidableEq

/-! ## Endpoints -/

/-- `/correct` (main.py lines 276-290). -/
def correct_text (lt : LTOutcome) (body : TextRequest) : CorrectResponse :=
  let text := pyStrip body.text
  if text = "" then ⟨"", "No text provided."⟩
  else
    let r := simple_correct lt text (pyOr body.mode "grammar")
    ⟨r.1, r.2⟩

/-- The lowered effective tone of a `/polish-ai` request
(main.py line 309). -/
def polishTone (body : AIRewriteRequest) : String :=
  pyLower (pyOr body.tone "friendly")

/-- The lowered effective style of a `/polish-ai` request
(main.py line 310). -/
def polishStyle (body : AIRewriteRequest) : String :=
  pyLower (pyOr body.style "neutral")

/-- The grammar-pass text of a `/polish-ai` request (main.py line 307). -/
def polishGrammared (lt : LTOutcome) (body : AIRewriteRequest) : String :=
  (simple_correct lt (pyStrip body.text) "grammar").1

/-- The Hugging Face call of `/polish-ai` (main.py lines 312-313), with
the grammar-pass text as both prompt subject and fallback. -/
def polishCall (lt : LTOutcome) (token : Option String) (hf : HFResult)
    (body : AIRewriteRequest) : String × Bool :=
  call_hf_rewrite token hf
    (build_hf_prompt (polishGrammared lt body) (polishTone body) (polishStyle body))
    (polishGrammared lt body)

/-- The success summary of `/polish-ai` (main.py lines 319-322). -/
def hfSuccessSummary (tone_label style_label : String) : String :=
  "Expression adjusted using Smart Rewrite v3 (Hugging Face) with '" ++
    tone_label ++ "' tone and '" ++ style_label ++ "' writing style."

/-- The fallback summary of `/polish-ai` (main.py lines 324-327). -/
def hfFallbackSummary (tone_label style_label : String) : String :=
  "Basic rewrite applied using grammar correction only; " ++
    "Hugging Face model was not available. Tone: '" ++ tone_label ++
    "', Style: '" ++ style_label ++ "'."

/-- `/polish-ai` (main.py lines 293-334). -/
def polish_ai (lt : LTOutcome) (token : Option String) (hf : HFResult)
    (body : AIRewriteRequest) : PolishResponse :=
  if pyStrip body.text = "" then ⟨"", "No text provided.", none, none⟩
  else
    let tone := polishTone body
    let style := polishStyle body
    let r := polishCall lt token hf body
    let summary :=
      if r.2 then hfSuccessSummary (pyCapitalize tone) (pyCapitalize style)
      else hfFallbackSummary (pyCapitalize tone) (pyCapitalize style)
    ⟨r.1, summary, some tone, some style⟩

/-! ## Spec-modelled rewrite pipeline

`backend/main.py` (the only file under `src/`) contains neither the
`SentenceSegmenter`, `PhraseRewriter` and `RewritePipeline` components of
spec sections 4.2-4.4 nor the `/rewrite-tone` route of section 6; the spec
attributes them to service variants of the repository that are not under
`src/`.  The definitions in this section are therefore modelled from the
spec text, not translated from source. -/

/-- Modelled from the spec (section 4.2, `SentenceSegmenter`): scan the
text, splitting on `.`, `!`, `?`, the delimiter attached to the preceding
sentence; a trailing unterminated fragment is emitted as a final sentence.
`acc` holds the current fragment reversed. -/
def segmentAux : List Char → List Char → List (List Char)
  | acc, [] => if acc = [] then [] else [acc.reverse]
  | acc, c :: rest =>
    if c = '.' ∨ c = '!' ∨ c = '?' then
      (acc.reverse ++ [c]) :: segmentAux [] rest
    else segmentAux (c :: acc) rest

/-- Modelled from the spec (section 4.2): segmentation on strings. -/
def segment (s : String) : List String :=
  (segmentAux [] s.data).map (fun l => ⟨l⟩)

/-- Modelled from the spec (section 4.3 step 2): replace the standalone
lower-case word `i` by `I`, on the whitespace-split words. -/
def fixPronounI (s : String) : String :=
  ⟨List.intercalate [' ']
    ((wordsAux [] s.data).map (fun w => if w = ['i'] then ['I'] else w))⟩

/-- Modelled from the spec (section 4.3 step 3): the weak-phrase table,
literal substring replacements removing hedging language, in table order. -/
def weak_phrase_table : List (String × String) :=
  [("I think that ", ""),
   ("maybe ", ""),
   ("kind of ", "")]

/-- Modelled from the spec (section 4.3 step 4): the phrasing table of
fixed idiom replacements. -/
def phrasing_table : List (String × String) :=
  [("I will try to", "I will"),
   ("very very", "very")]

/-- Modelled from the spec (section 4.3 step 5): sentence-initial
connector normalization; the prefix is matched case-insensitively, at most
one rule fires, checked in the priority order but / and / so / then /
later. -/
def connectorNormalize (s : String) : String :=
  let low := (pyLower s).data
  if startsWithList "but ".data low then ⟨"However, ".data ++ s.data.drop 4⟩
  else if startsWithList "and ".data low then ⟨s.data.drop 4⟩
  else if startsWithList "so ".data low then ⟨"As a result, ".data ++ s.data.drop 3⟩
  else if startsWithList "then ".data low then ⟨"Then, ".data ++ s.data.drop 5⟩
  else if startsWithList "later ".data low then ⟨"Later, ".data ++ s.data.drop 6⟩
  else s

/-- Modelled from the spec (section 4.3, `PhraseRewriter.rewrite`):
normalize whitespace, fix the pronoun `i`, apply the weak-phrase table,
the phrasing table, then connector normalization. -/
def rewriteSentence (s : String) : String :=
  connectorNormalize
    (applyReplacements phrasing_table
      (applyReplacements weak_phrase_table (fixPronounI (normWS s))))

/-- Helper for adjacent-duplicate suppression (spec section 4.4 step 4):
`prev` is the immediately preceding kept sentence. -/
def dedupeKeep (prev : String) : List String → List String
  | [] => []
  | s :: rest => if s = prev then dedupeKeep prev rest else s :: dedupeKeep s rest

/-- Modelled from the spec (section 4.4 step 4): drop a sentence when it
equals the immediately preceding kept sentence. -/
def dedupeAdjacent : List String → List String
  | [] => []
  | s :: rest => s :: dedupeKeep s rest

/-- The kept sentence list of the rewrite pipeline (spec section 4.4
steps 1-4). -/
def pipelineSentences (t : String) : List String :=
  dedupeAdjacent ((segment (normWS t)).map rewriteSentence)

/-- Modelled from the spec (section 4.4, `RewritePipeline.rewrite_text`):
normalize, segment, rewrite each sentence, suppress adjacent duplicates,
rejoin with single-space separators. -/
def rewrite_text (t : String) : String :=
  ⟨List.intercalate [' '] ((pipelineSentences t).map String.data)⟩

/-- Modelled from the spec (section 6): the `/rewrite-tone` request body. -/
structure ToneRequest where
  text : String
  tone : String
deriving DecidableEq

/-- Modelled from the spec (section 6): the `/rewrite-tone` route, absent
from `backend/main.py`.  The spec fixes its empty-input short circuit
(`correctedText: ""`, `changesSummary: "No text provided."`); on non-empty
input it runs the rewrite pipeline with the requested tone (the spec does
not enumerate the tone tables, so the tone transformation is Modelled as
the rewrite pipeline followed by a tone-naming summary). -/
def rewrite_tone (body : ToneRequest) : CorrectResponse :=
  let text := pyStrip body.text
  if text = "" then ⟨"", "No text provided."⟩
  else ⟨rewrite_text text, "Rewritten with " ++ body.tone ++ " tone."⟩

/-! ## Helper lemmas -/

/-- `Char.ofNat` of a small scalar value evaluates back to it. -/
theorem toNat_ofNat_small {n : Nat} (h : n < 55296) : (Char.ofNat n).toNat = n := by
  unfold Char.ofNat
  rw [dif_pos (Or.inl h)]
  rfl

/-- ASCII upper-casing of a single character is idempotent. -/
theorem toUpper_toUpper (c : Char) : c.toUpper.toUpper = c.toUpper := by
  by_cases h : 97 ≤ c.toNat ∧ c.toNat ≤ 122
  · have h1 : c.toUpper = Char.ofNat (c.toNat - 32) := by
      unfold Char.toUpper
      rw [if_pos h]
    have hv : (Char.ofNat (c.toNat - 32)).toNat = c.toNat - 32 :=
      toNat_ofNat_small (by omega)
    rw [h1]
    unfold Char.toUpper
    rw [if_neg (by rw [hv]; omega)]
  · have h1 : c.toUpper = c := by
      unfold Char.toUpper
      rw [if_neg h]
    rw [h1, h1]

/-- `stripList` is Mathlib's right-drop after the left-drop. -/
theorem stripList_eq (l : List Char) :
    stripList l = List.rdropWhile pyIsSpace (l.dropWhile pyIsSpace) := rfl

/-- A prefix of a list with no leading whitespace has no leading
whitespace. -/
theorem dropWhile_eq_self_of_isPrefix {p : Char → Bool} {z a : List Char}
    (hz : z <+: a) (ha : a.dropWhile p = a) : z.dropWhile p = z := by
  rw [List.dropWhile_eq_self_iff] at ha ⊢
  intro hl
  have hla : 0 < a.length := lt_of_lt_of_le hl hz.length_le
  have h0 : z.get ⟨0, hl⟩ = a.get ⟨0, hla⟩ := by
    simp only [List.get_eq_getElem]
    exact hz.getElem hl
  rw [h0]
  exact ha hla

/-- Python `strip` is idempotent on character lists. -/
theorem stripList_idem (l : List Char) : stripList (stripList l) = stripList l := by
  rw [stripList_eq, stripList_eq]
  have h1 : (List.rdropWhile pyIsSpace (l.dropWhile pyIsSpace)).dropWhile pyIsSpace
      = List.rdropWhile pyIsSpace (l.dropWhile pyIsSpace) :=
    dropWhile_eq_self_of_isPrefix (List.rdropWhile_prefix _ _)
      (List.dropWhile_idempotent _ _)
  rw [h1, List.rdropWhile_idempotent]

/-- Python `strip` is idempotent. -/
theorem pyStrip_idem (s : String) : pyStrip (pyStrip s) = pyStrip s :=
  congrArg String.mk (stripList_idem s.data)

/-- The capitalize-and-punctuate list transform is idempotent. -/
theorem capPunctList_idem (l : List Char) :
    capPunctList (capPunctList l) = capPunctList l := by
  cases l with
  | nil => rfl
  | cons c rest =>
    by_cases h : (c.toUpper :: rest).getLastD ' ' ∈ ['.', '!', '?']
    · simp only [capPunctList, if_pos h, toUpper_toUpper, if_pos h]
    · simp only [capPunctList, if_neg h, List.cons_append]
      have h2 : (c.toUpper.toUpper :: (rest ++ ['.'])).getLastD ' ' = '.' := by
        rw [toUpper_toUpper, ← List.cons_append, List.getLastD_concat]
      rw [if_pos (by rw [h2]; simp), toUpper_toUpper]

/-- Adjacent-duplicate suppression keeps adjacent entries distinct. -/
theorem dedupeKeep_chain (prev : String) (l : List String) :
    List.Chain' (fun a b => a ≠ b) (prev :: dedupeKeep prev l) := by
  induction l generalizing prev with
  | nil => simp [dedupeKeep]
  | cons s rest ih =>
    by_cases h : s = prev
    · simp only [dedupeKeep, if_pos h]
      exact ih prev
    · simp only [dedupeKeep, if_neg h]
      exact List.chain'_cons.mpr ⟨fun e => h e.symm, ih s⟩

/-- Adjacent-duplicate suppression never lengthens the list. -/
theorem dedupeKeep_length (prev : String) (l : List String) :
    (dedupeKeep prev l).length ≤ l.length := by
  induction l generalizing prev with
  | nil => simp [dedupeKeep]
  | cons s rest ih =>
    by_cases h : s = prev
    · simp only [dedupeKeep, if_pos h]
      exact Nat.le_succ_of_le (ih prev)
    · simp only [dedupeKeep, if_neg h, List.length_cons]
      exact Nat.succ_le_succ (ih s)

/-! ## Claim theorems -/

/-- C1: a request whose text is empty or whitespace-only makes each of the
three endpoints return `correctedText = ""` and
`changesSummary = "No text provided."`; the result is independent of every
collaborator outcome (`lt`, `token`, `hf`), which is the observable form
of "no pipeline stage or external service is invoked". -/
theorem C1_empty_input_short_circuit (lt : LTOutcome) (token : Option String)
    (hf : HFResult) (b1 : TextRequest) (b2 : AIRewriteRequest) (b3 : ToneRequest)
    (h1 : pyStrip b1.text = "") (h2 : pyStrip b2.text = "")
    (h3 : pyStrip b3.text = "") :
    correct_text lt b1 = ⟨"", "No text provided."⟩
    ∧ polish_ai lt token hf b2 = ⟨"", "No text provided.", none, none⟩
    ∧ rewrite_tone b3 = ⟨"", "No text provided."⟩ := by
  refine ⟨?_, ?_, ?_⟩
  · simp [correct_text, h1]
  · simp [polish_ai, h2]
  · simp [rewrite_tone, h3]

/-- Witness for C1 at the whitespace-only inputs `"   "`, `""` and
`" \t "`. -/
theorem C1_empty_input_short_circuit_witness :
    correct_text .unavailable ⟨"   ", none⟩ = ⟨"", "No text provided."⟩
    ∧ polish_ai .unavailable none .httpFail ⟨"", none, none⟩
        = ⟨"", "No text provided.", none, none⟩
    ∧ rewrite_tone ⟨" \t ", "calm"⟩ = ⟨"", "No text provided."⟩ :=
  C1_empty_input_short_circuit .unavailable none .httpFail
    ⟨"   ", none⟩ ⟨"", none, none⟩ ⟨" \t ", "calm"⟩
    (by decide) (by decide) (by decide)

/-- C5 counterexample: after a failed initialization the global is reset
to `None`, which is the uninitialized state, so the very next call
attempts the failing initialization again — refuting "no further failing
initialization calls are attempted for the remainder of the process
lifetime". -/
theorem C5_counterexample :
    (get_language_tool .fails none).newState = none
    ∧ (get_language_tool .fails
        ((get_language_tool .fails none).newState)).attemptedInit = true := by
  decide

/-- C5 (amended): a successful initialization is cached and every later
call reuses the handle without attempting initialization; a failed
initialization leaves the global at `None`, indistinguishable from the
uninitialized state, so every call that finds `None` attempts
initialization (no negative caching). -/
theorem C5_amended_lazy_init (c : Nat) (env : LTInit) :
    get_language_tool env (some c) = ⟨some c, some c, false⟩
    ∧ get_language_tool (.succeeds c) none = ⟨some c, some c, true⟩
    ∧ get_language_tool .fails none = ⟨none, none, true⟩ :=
  ⟨rfl, rfl, rfl⟩

/-- C6: the capitalize-and-punctuate operation of `simple_correct` is
idempotent. -/
theorem C6_capitalize_and_punctuate_idem (s : String) :
    capitalize_and_punctuate (capitalize_and_punctuate s)
      = capitalize_and_punctuate s :=
  congrArg String.mk (capPunctList_idem s.data)

/-- C9: the casual-mode tone rules use plain substring replacement, so
`"sir"` is replaced inside `"desire"` giving `"debroe"`, and every
occurrence of `"sir"` is replaced. -/
theorem C9_casual_substring_replacement :
    basic_tone_adjust "desire" "casual" = "debroe"
    ∧ pyContains "my desire is strong" "desire" = true
    ∧ pyContains (basic_tone_adjust "my desire is strong" "casual") "debroe" = true
    ∧ basic_tone_adjust "sir said sir" "casual" = "bro said bro" := by
  refine ⟨rfl, rfl, rfl, rfl⟩

/-- C10: every key of the professional replacement table begins with a
space, so a target word at position 0 is never replaced (`"gonna go"` is
unchanged) while the same word after a space is rewritten. -/
theorem C10_professional_keys_space_anchored :
    professional_replacements.all (fun p => p.1.data.head? = some ' ') = true
    ∧ basic_tone_adjust "gonna go" "professional" = "gonna go"
    ∧ basic_tone_adjust "I am gonna go" "professional" = "I am going to go" := by
  refine ⟨rfl, rfl, rfl⟩

/-- C7: the rewrite pipeline output has no two adjacent identical
sentences, and its sentence count is at most the sentence count of the
(normalized) input. -/
theorem C7_no_adjacent_duplicates (t : String) :
    List.Chain' (fun a b => a ≠ b) (pipelineSentences t)
    ∧ (pipelineSentences t).length ≤ (segment (normWS t)).length := by
  have hlen : ((segment (normWS t)).map rewriteSentence).length
      = (segment (normWS t)).length := List.length_map _ _
  unfold pipelineSentences
  cases h : (segment (normWS t)).map rewriteSentence with
  | nil =>
    constructor
    · simp [dedupeAdjacent]
    · simp [dedupeAdjacent]
  | cons s rest =>
    rw [h] at hlen
    constructor
    · simpa [dedupeAdjacent] using dedupeKeep_chain s rest
    · simp only [dedupeAdjacent, List.length_cons, ← hlen]
      exact Nat.succ_le_succ (dedupeKeep_length s rest)

/-- `dict.get` returns the default when the key is bound by no table
entry. -/
theorem dictGetD_eq_default (m : List (String × String)) (k d : String)
    (h : ∀ p ∈ m, p.1 ≠ k) : dictGetD m k d = d := by
  unfold dictGetD
  have hf : m.find? (fun p => p.1 = k) = none :=
    List.find?_eq_none.mpr (fun p hp => by simpa using h p hp)
  rw [hf]

/-- C8: a tone outside the tone enumeration and a style outside the style
enumeration both fall back to the neutral prompt parts, so the built
prompt equals the neutral/neutral prompt; the request cannot fail since
`build_hf_prompt` is total. -/
theorem C8_unknown_tone_style_fallback (text tone style : String)
    (ht : tone ∉ ["friendly", "professional", "confident", "calm", "caring",
      "persuasive", "neutral"])
    (hs : style ∉ ["neutral", "student", "corporate", "ielts", "romantic"]) :
    build_hf_prompt text tone style = build_hf_prompt text "neutral" "neutral" := by
  unfold build_hf_prompt
  rw [dictGetD_eq_default _ _ _ (by
    intro p hp
    simp only [tone_instruction_map] at hp
    simp only [List.mem_cons, List.not_mem_nil, or_false] at hp
    rcases hp with rfl | rfl | rfl | rfl | rfl | rfl | rfl <;>
      first
        | exact fun e => ht (by rw [← e]; simp)
  )]
  rw [dictGetD_eq_default _ _ _ (by
    intro p hp
    simp only [style_instruction_map] at hp
    simp only [List.mem_cons, List.not_mem_nil, or_false] at hp
    rcases hp with rfl | rfl | rfl | rfl | rfl <;>
      first
        | exact fun e => hs (by rw [← e]; simp)
  )]
  rfl

/-- Witness for C8 at the unknown tone `"sarcastic"` and unknown style
`"poetic"`. -/
theorem C8_unknown_tone_style_fallback_witness :
    build_hf_prompt "We should go." "sarcastic" "poetic"
      = build_hf_prompt "We should go." "neutral" "neutral" :=
  C8_unknown_tone_style_fallback "We should go." "sarcastic" "poetic"
    (by decide) (by decide)

/-- C2 counterexample: with internal whitespace in the input (`"a  b"`)
and the grammar collaborator unavailable, `/correct` returns `"A  b."`,
not the whitespace-normalized (run-collapsed, per the spec definition of
normalization) `"A b."`; the code only strips the ends. -/
theorem C2_counterexample :
    (correct_text .unavailable ⟨"a  b", some "grammar"⟩).correctedText
      ≠ capitalize_and_punctuate (normWS "a  b")
    ∧ (correct_text .unavailable ⟨"a  b", some "grammar"⟩).correctedText
      = capitalize_and_punctuate (pyStrip "a  b") := by
  refine ⟨by decide, rfl⟩

/-- C2 (amended): for every non-empty input, when the grammar collaborator
is unavailable or its check raises, `/correct` (in its default
`"grammar"` mode) returns the original text stripped of leading and
trailing whitespace (internal whitespace preserved), first character
upper-cased and terminal punctuation appended when missing, and its fixed
summary string; no exception can propagate since the function is total. -/
theorem C2_amended_fallback (text : String) (mode : Option String) (lt : LTOutcome)
    (hne : pyStrip text ≠ "") (hmode : pyOr mode "grammar" = "grammar")
    (hlt : lt = .unavailable ∨ lt = .checkError) :
    correct_text lt ⟨text, mode⟩
      = ⟨capitalize_and_punctuate (pyStrip text), simpleSummary "grammar"⟩ := by
  have hmode2 : pyOr (TextRequest.mk text mode).mode "grammar" = "grammar" := hmode
  unfold correct_text
  rw [if_neg hne, hmode2]
  unfold simple_correct
  rw [pyStrip_idem, if_neg hne]
  unfold apply_language_tool
  rw [pyStrip_idem, if_neg hne]
  rcases hlt with rfl | rfl <;>
    simp [basic_tone_adjust]

/-- Witness for C2 at `" hello "` with the tool unavailable and the mode
field absent. -/
theorem C2_amended_fallback_witness :
    correct_text .unavailable ⟨" hello ", none⟩
      = ⟨capitalize_and_punctuate (pyStrip " hello "), simpleSummary "grammar"⟩ :=
  C2_amended_fallback " hello " none .unavailable
    (by decide) rfl (Or.inl rfl)

/-- C3 counterexample: in a degraded run (`LanguageTool` unavailable) of
`/correct`, the summary is the very same string as in a successful run,
and it affirmatively claims the external service was used — so the
summary does not state whether degraded mode was used. -/
theorem C3_counterexample :
    (simple_correct .unavailable "hello" "grammar").2
      = (simple_correct (.ok "hello") "hello" "grammar").2
    ∧ (simple_correct .unavailable "hello" "grammar").2
      = simpleSummary "grammar"
    ∧ pyContains (simple_correct .unavailable "hello" "grammar").2
        "LanguageToolPublicAPI" = true := by
  refine ⟨rfl, rfl, rfl⟩

/-- C3 (amended): only `/polish-ai` reports degraded mode accurately: its
summary is the Hugging Face success summary exactly when the generation
call succeeded and the fallback summary exactly when it did not, while the
`/correct` summary is one fixed string independent of the LanguageTool
outcome, so it cannot state degraded mode. -/
theorem C3_amended_summary_accuracy :
    (∀ (lt : LTOutcome) (token : Option String) (hf : HFResult)
        (body : AIRewriteRequest), pyStrip body.text ≠ "" →
      (((polishCall lt token hf body).2 = true →
          (polish_ai lt token hf body).changesSummary
            = hfSuccessSummary (pyCapitalize (polishTone body))
                (pyCapitalize (polishStyle body)))
       ∧ ((polishCall lt token hf body).2 = false →
          (polish_ai lt token hf body).changesSummary
            = hfFallbackSummary (pyCapitalize (polishTone body))
                (pyCapitalize (polishStyle body)))))
    ∧ (∀ (lt1 lt2 : LTOutcome) (text mode : String),
        (simple_correct lt1 text mode).2 = (simple_correct lt2 text mode).2) := by
  constructor
  · intro lt token hf body hne
    constructor <;> intro h <;> simp [polish_ai, hne, h]
  · intro lt1 lt2 text mode
    unfold simple_correct
    by_cases hc : pyStrip text = "" <;> simp [hc]

/-- Witness for C3 (amended): with no API token the generation call fails
and the `/polish-ai` summary is the fallback summary. -/
theorem C3_amended_summary_accuracy_witness :
    (polish_ai .unavailable none .httpFail ⟨"hi", none, none⟩).changesSummary
      = hfFallbackSummary (pyCapitalize (polishTone ⟨"hi", none, none⟩))
          (pyCapitalize (polishStyle ⟨"hi", none, none⟩)) :=
  (C3_amended_summary_accuracy.1 .unavailable none .httpFail
    ⟨"hi", none, none⟩ (by decide)).2 rfl

/-- C4: for every non-empty `/polish-ai` request, each generation failure
mode — missing or empty API token, raised request exception (network
error or non-2xx), response without a usable `generated_text`, or an
empty generated string — leaves `correctedText` equal to the
grammar-corrected pre-generation text; a missing token is non-fatal. -/
theorem C4_generation_failure_fallback (lt : LTOutcome) (token : Option String)
    (hf : HFResult) (body : AIRewriteRequest)
    (hne : pyStrip body.text ≠ "")
    (hfail : pyOr token "" = "" ∨ hf = .httpFail ∨ hf = .response none
      ∨ hf = .response (some "")) :
    (polish_ai lt token hf body).correctedText
      = (simple_correct lt (pyStrip body.text) "grammar").1 := by
  have hr : polishCall lt token hf body = (polishGrammared lt body, false) := by
    unfold polishCall call_hf_rewrite
    by_cases ht : pyOr token "" = ""
    · rw [if_pos ht]
    · rcases hfail with h | h | h | h
      · exact absurd h ht
      · rw [if_neg ht, h]
      · rw [if_neg ht, h]
      · rw [if_neg ht, h]
        rfl
  simp [polish_ai, hne, hr, polishGrammared]

/-- Witness for C4: missing token on a non-empty request returns the
grammar-pass text. -/
theorem C4_generation_failure_fallback_witness :
    (polish_ai .unavailable none .httpFail ⟨"hello world", none, none⟩).correctedText
      = (simple_correct .unavailable (pyStrip "hello world") "grammar").1 :=
  C4_generation_failure_fallback .unavailable none .httpFail
    ⟨"hello world", none, none⟩ (by decide) (Or.inl rfl)

end TypePolish
